import Mathlib

/-!
Shallow embedding of `src/linedify/dify.py` (the `DifyAgent` client):
the streaming response decoder / event-aggregation engine and the
`invoke` request path, together with theorems checking the
natural-language specification against it.

Modelling conventions:
  * Python `bytes` are `List Nat` (byte values).
  * Python `str` is Lean `String` (in Lean 4.14 a `String` wraps a
    `List Char`), or `List Char` where character-indexed slicing from
    the source (`decoded_r[5:]`) makes that more direct.
  * JSON values (the result of `json.loads`) are the inductive `Json`;
    a Python `dict` produced by the JSON parser is an association list
    in document order, with lookups taking the LAST binding of a key,
    matching `json.loads` duplicate-key semantics.
  * Exceptions are modelled with `Except PyErr`; code raising an
    uncaught exception is `.error e`, which aborts the invocation just
    as an exception propagating out of the `async for` loop does.
-/

namespace Linedify

/-- JSON values as produced by `json.loads`.  Numbers are kept exactly as
`mantissa * 10 ^ exp10`, which represents every JSON decimal literal. -/
inductive Json where
  | null : Json
  | bool (b : Bool) : Json
  | num (mantissa : Int) (exp10 : Int) : Json
  | str (s : String) : Json
  | arr (items : List Json) : Json
  | obj (fields : List (String × Json)) : Json
deriving Repr

/-- Lookup in an association list returning the LAST binding of the key,
matching the duplicate-key behaviour of a Python dict built by
`json.loads` (later bindings overwrite earlier ones). -/
def lookupLast (fields : List (String × Json)) (k : String) : Option Json :=
  match fields with
  | [] => none
  | (k2, v) :: rest =>
    match lookupLast rest k with
    | some v2 => some v2
    | none => if k2 == k then some v else none

/-- Python truthiness of a JSON value: `None`, `False`, `0`, `""`, `[]`
and `\x7b\x7d` are falsy, everything else truthy. -/
def Json.truthy : Json → Bool
  | .null => false
  | .bool b => b
  | .num m _ => m != 0
  | .str s => s != ""
  | .arr items => !items.isEmpty
  | .obj fields => !fields.isEmpty

/-- Python `x == "lit"` for a JSON value `x`: string equality when `x`
is a string, `False` otherwise (Python equality across types is falsy
and raises nothing). -/
def Json.isStrEq (j : Json) (s : String) : Bool :=
  match j with
  | .str t => t == s
  | _ => false

/-- Python exceptions that the embedded code can raise. -/
inductive PyErr where
  | keyError (k : String) : PyErr
  | typeError : PyErr
  | attributeError : PyErr
  | jsonDecodeError : PyErr
  | httpStatusError (status : Nat) : PyErr
  | exn (msg : String) : PyErr
deriving Repr, DecidableEq

/-- Python subscript `chunk[k]`: on a dict, the value or `KeyError`;
on any non-dict JSON value, `TypeError` (not subscriptable by `str`). -/
def pySubscript (j : Json) (k : String) : Except PyErr Json :=
  match j with
  | .obj fields =>
    match lookupLast fields k with
    | some v => .ok v
    | none => .error (.keyError k)
  | _ => .error .typeError

/-- Python `chunk.get(k)`: on a dict, an optional value; on any
non-dict JSON value, `AttributeError` (no `.get` method). -/
def pyGet (j : Json) (k : String) : Except PyErr (Option Json) :=
  match j with
  | .obj fields => .ok (lookupLast fields k)
  | _ => .error .attributeError

/-! ## UTF-8 decoding (`bytes.decode("utf-8")`, strict mode) -/

/-- Whether a byte is a UTF-8 continuation byte (`0x80`-`0xBF`). -/
def isCont (b : Nat) : Bool := 0x80 ≤ b && b ≤ 0xBF

/-- Strict UTF-8 decoding, fuelled by the byte count (each step
consumes one unit of fuel and at least one byte, so fuel equal to the
length never runs out). -/
def utf8DecodeAux : Nat → List Nat → Option (List Char)
  | _, [] => some []
  | 0, _ :: _ => none
  | fuel + 1, b :: rest =>
    if b ≤ 0x7F then
      (utf8DecodeAux fuel rest).map (fun cs => Char.ofNat b :: cs)
    else if 0xC2 ≤ b && b ≤ 0xDF then
      match rest with
      | b1 :: rest2 =>
        if isCont b1 then
          (utf8DecodeAux fuel rest2).map (fun cs => Char.ofNat ((b - 0xC0) * 64 + (b1 - 0x80)) :: cs)
        else none
      | [] => none
    else if 0xE0 ≤ b && b ≤ 0xEF then
      match rest with
      | b1 :: b2 :: rest2 =>
        let okB1 :=
          if b == 0xE0 then 0xA0 ≤ b1 && b1 ≤ 0xBF
          else if b == 0xED then 0x80 ≤ b1 && b1 ≤ 0x9F
          else isCont b1
        if okB1 && isCont b2 then
          (utf8DecodeAux fuel rest2).map (fun cs =>
            Char.ofNat ((b - 0xE0) * 4096 + (b1 - 0x80) * 64 + (b2 - 0x80)) :: cs)
        else none
      | _ => none
    else if 0xF0 ≤ b && b ≤ 0xF4 then
      match rest with
      | b1 :: b2 :: b3 :: rest2 =>
        let okB1 :=
          if b == 0xF0 then 0x90 ≤ b1 && b1 ≤ 0xBF
          else if b == 0xF4 then 0x80 ≤ b1 && b1 ≤ 0x8F
          else isCont b1
        if okB1 && isCont b2 && isCont b3 then
          (utf8DecodeAux fuel rest2).map (fun cs =>
            Char.ofNat ((b - 0xF0) * 262144 + (b1 - 0x80) * 4096 + (b2 - 0x80) * 64 + (b3 - 0x80)) :: cs)
        else none
      | _ => none
    else none

/-- Strict UTF-8 decoding of a byte list, as Python's
`bytes.decode("utf-8")`: rejects truncated sequences, stray
continuation bytes, overlong encodings, surrogates and code points
above `U+10FFFF`; `none` models `UnicodeDecodeError`. -/
def utf8Decode (l : List Nat) : Option (List Char) := utf8DecodeAux l.length l

/-! ## Delimiter handling (`buffer.split(b"\n\n", 1)`) -/

/-- First split of a byte buffer at the delimiter `\n\n` (bytes 10,10):
`some (data, rest)` when the delimiter occurs, with `data` the bytes
before its first occurrence and `rest` the bytes after it; `none` when
the buffer holds no delimiter.  This is `buffer.split(b"\n\n", 1)`
together with the containment test `b"\n\n" in buffer`. -/
def splitOnFirstDelim (l : List Nat) : Option (List Nat × List Nat) :=
  match l with
  | 10 :: 10 :: rest => some ([], rest)
  | b :: rest =>
    (splitOnFirstDelim rest).map (fun p => (b :: p.1, p.2))
  | [] => none

/-! ## JSON parsing (`json.loads`)

A direct model of CPython's pure-Python JSON scanner: whitespace is
` \t\n\r`; numbers follow the regex `(-?(0|[1-9]d*))(.d+)?([eE][+-]?d+)?`;
strings are strict (raw control characters below `0x20` rejected) with
the standard escapes and `\uXXXX` (surrogate pairs combined; lone
surrogates, which CPython tolerates, are rejected here since a `Char`
cannot hold them — no claim depends on them); the constants
`NaN`/`Infinity` that CPython additionally tolerates are not modelled
(no claim involves them).  `none` models `json.JSONDecodeError`. -/

/-- The character `\x7b` (left curly brace). -/
def lbrace : Char := Char.ofNat 123

/-- The character `\x7d` (right curly brace). -/
def rbrace : Char := Char.ofNat 125

/-- Skip JSON whitespace (space, tab, newline, carriage return). -/
def skipWs : List Char → List Char
  | c :: rest =>
    if c == ' ' || c == '\t' || c == '\n' || c == '\r' then skipWs rest else c :: rest
  | [] => []

/-- Value of a decimal digit character, `none` for non-digits. -/
def digitVal (c : Char) : Option Nat :=
  if '0' ≤ c && c ≤ '9' then some (c.toNat - 48) else none

/-- Take the maximal run of decimal digits from the front. -/
def takeDigits : List Char → List Nat × List Char
  | [] => ([], [])
  | c :: rest =>
    match digitVal c with
    | some d =>
      let p := takeDigits rest
      (d :: p.1, p.2)
    | none => ([], c :: rest)

/-- Read a digit list as a natural number. -/
def digitsToNat (ds : List Nat) : Nat := ds.foldl (fun acc d => acc * 10 + d) 0

/-- Integer part of a JSON number: `0`, or a nonzero digit followed by
any digits (so `01` parses as `0` with `1` left over, as in CPython's
number regex). -/
def parseIntDigits (l : List Char) : Option (List Nat × List Char) :=
  match l with
  | c :: rest =>
    match digitVal c with
    | some 0 => some ([0], rest)
    | some d =>
      let p := takeDigits rest
      some (d :: p.1, p.2)
    | none => none
  | [] => none

/-- Parse a JSON number at the front of the input, returning its exact
decimal value as `Json.num mantissa exp10`. -/
def parseNumber (l : List Char) : Option (Json × List Char) :=
  let sp : Bool × List Char :=
    match l with
    | '-' :: rest => (true, rest)
    | _ => (false, l)
  match parseIntDigits sp.2 with
  | none => none
  | some (intDs, r1) =>
    let fp : List Nat × List Char :=
      match r1 with
      | '.' :: rest =>
        match takeDigits rest with
        | ([], _) => ([], r1)
        | (ds, r) => (ds, r)
      | _ => ([], r1)
    let ep : Int × List Char :=
      match fp.2 with
      | e :: rest =>
        if e == 'e' || e == 'E' then
          let sp2 : Bool × List Char :=
            match rest with
            | '-' :: r => (true, r)
            | '+' :: r => (false, r)
            | _ => (false, rest)
          match takeDigits sp2.2 with
          | ([], _) => ((0 : Int), fp.2)
          | (ds, r) =>
            ((if sp2.1 then -(digitsToNat ds : Int) else (digitsToNat ds : Int)), r)
        else ((0 : Int), fp.2)
      | [] => ((0 : Int), fp.2)
    let mag : Int := (digitsToNat (intDs ++ fp.1) : Int)
    some (.num (if sp.1 then -mag else mag) (ep.1 - fp.1.length), ep.2)

/-- Single-character string escapes of `json.loads` (backspace and
form feed written by code point). -/
def escSimple : Char → Option Char
  | '"' => some '"'
  | '\\' => some '\\'
  | '/' => some '/'
  | 'b' => some (Char.ofNat 8)
  | 'f' => some (Char.ofNat 12)
  | 'n' => some '\n'
  | 'r' => some '\r'
  | 't' => some '\t'
  | _ => none

/-- Value of a hexadecimal digit character. -/
def hexVal (c : Char) : Option Nat :=
  if '0' ≤ c && c ≤ '9' then some (c.toNat - 48)
  else if 'a' ≤ c && c ≤ 'f' then some (c.toNat - 87)
  else if 'A' ≤ c && c ≤ 'F' then some (c.toNat - 55)
  else none

/-- Four hexadecimal digits, as in a `\uXXXX` escape. -/
def parseHex4 : List Char → Option (Nat × List Char)
  | a :: b :: c :: d :: rest => do
    let va ← hexVal a
    let vb ← hexVal b
    let vc ← hexVal c
    let vd ← hexVal d
    some ((((va * 16 + vb) * 16 + vc) * 16) + vd, rest)
  | _ => none

/-- Body of a JSON string, positioned just after the opening quote;
returns the decoded characters and the input after the closing quote. -/
def parseStringBody : Nat → List Char → Option (List Char × List Char)
  | 0, _ => none
  | _, [] => none
  | fuel + 1, c :: rest =>
    if c == '"' then some ([], rest)
    else if c == '\\' then
      match rest with
      | [] => none
      | e :: rest2 =>
        match escSimple e with
        | some ec => (parseStringBody fuel rest2).map (fun p => (ec :: p.1, p.2))
        | none =>
          if e == 'u' then
            match parseHex4 rest2 with
            | none => none
            | some (n, rest3) =>
              if 0xD800 ≤ n && n ≤ 0xDBFF then
                match rest3 with
                | '\\' :: 'u' :: rest4 =>
                  match parseHex4 rest4 with
                  | some (n2, rest5) =>
                    if 0xDC00 ≤ n2 && n2 ≤ 0xDFFF then
                      (parseStringBody fuel rest5).map (fun p =>
                        (Char.ofNat (0x10000 + (n - 0xD800) * 1024 + (n2 - 0xDC00)) :: p.1, p.2))
                    else none
                  | none => none
                | _ => none
              else if 0xDC00 ≤ n && n ≤ 0xDFFF then none
              else (parseStringBody fuel rest3).map (fun p => (Char.ofNat n :: p.1, p.2))
          else none
    else if c.toNat < 0x20 then none
    else (parseStringBody fuel rest).map (fun p => (c :: p.1, p.2))

/-- Parse a JSON string body with enough fuel for its input. -/
def parseJString (l : List Char) : Option (List Char × List Char) :=
  parseStringBody (l.length + 1) l

mutual

/-- Parse one JSON value at the front of the input (no leading
whitespace), returning the value and the remaining input. -/
def parseValue : Nat → List Char → Option (Json × List Char)
  | 0, _ => none
  | fuel + 1, l =>
    match l with
    | [] => none
    | c :: rest =>
      if c == lbrace then
        let l2 := skipWs rest
        match l2 with
        | c2 :: rest2 =>
          if c2 == rbrace then some (.obj [], rest2)
          else if c2 == '"' then
            (parseMembers fuel l2).map (fun p => ((Json.obj p.1 : Json), p.2))
          else none
        | [] => none
      else if c == '[' then
        let l2 := skipWs rest
        match l2 with
        | c2 :: rest2 =>
          if c2 == ']' then some (.arr [], rest2)
          else (parseItems fuel l2).map (fun p => ((Json.arr p.1 : Json), p.2))
        | [] => none
      else if c == '"' then
        (parseJString rest).map (fun p => ((Json.str (String.mk p.1) : Json), p.2))
      else if c == 't' then
        match rest with
        | 'r' :: 'u' :: 'e' :: rest2 => some (.bool true, rest2)
        | _ => none
      else if c == 'f' then
        match rest with
        | 'a' :: 'l' :: 's' :: 'e' :: rest2 => some (.bool false, rest2)
        | _ => none
      else if c == 'n' then
        match rest with
        | 'u' :: 'l' :: 'l' :: rest2 => some (.null, rest2)
        | _ => none
      else if c == '-' || (digitVal c).isSome then parseNumber l
      else none

/-- Members of a JSON object, positioned at the opening quote of a key. -/
def parseMembers : Nat → List Char → Option (List (String × Json) × List Char)
  | 0, _ => none
  | fuel + 1, l =>
    match l with
    | c :: rest =>
      if c == '"' then
        match parseJString rest with
        | none => none
        | some (key, r1) =>
          match skipWs r1 with
          | ':' :: r2 =>
            match parseValue fuel (skipWs r2) with
            | none => none
            | some (v, r3) =>
              match skipWs r3 with
              | c4 :: r4 =>
                if c4 == ',' then
                  match parseMembers fuel (skipWs r4) with
                  | none => none
                  | some (fields, r5) => some ((String.mk key, v) :: fields, r5)
                else if c4 == rbrace then some ([(String.mk key, v)], r4)
                else none
              | [] => none
          | _ => none
      else none
    | [] => none

/-- Items of a JSON array, positioned at the first character of an item. -/
def parseItems : Nat → List Char → Option (List Json × List Char)
  | 0, _ => none
  | fuel + 1, l =>
    match parseValue fuel l with
    | none => none
    | some (v, r1) =>
      match skipWs r1 with
      | c2 :: r2 =>
        if c2 == ',' then
          match parseItems fuel (skipWs r2) with
          | none => none
          | some (items, r3) => some (v :: items, r3)
        else if c2 == ']' then some ([v], r2)
        else none
      | [] => none

end

/-- `json.loads` on a character list: skip leading whitespace, parse one
value, and require only whitespace to remain. -/
def parseJson (l : List Char) : Option Json :=
  match parseValue (l.length + 1) (skipWs l) with
  | some (v, rest) =>
    match skipWs rest with
    | [] => some v
    | _ => none
  | none => none

/-! ## Aggregates and event folding -/

/-- Value stored for a snapshot field: the source pattern
`chunk[k] if chunk.get(k) else None` — the value when the key is
present AND its value is truthy, `None` otherwise. -/
def snapVal (fields : List (String × Json)) (k : String) : Option Json :=
  match lookupLast fields k with
  | some v => if v.truthy then some v else none
  | none => none

/-- Python `s.rstrip("/")`: remove all trailing slashes. -/
def rstripSlash (s : String) : String :=
  String.mk ((s.data.reverse.dropWhile (fun c => c == '/')).reverse)

/-- The `response_data` dict built by `process_agent_response`:
possible keys `tool`, `tool_input`, `retriever_resources`, `files`;
an absent key is `none` (resp. `[]` for the list-valued `files`, which
the code never stores empty). -/
structure AgentData where
  tool : Option Json := none
  tool_input : Option Json := none
  retriever_resources : Option Json := none
  files : List (List (String × Option Json)) := []
deriving Repr

/-- Local state of `process_agent_response`: `conversation_id`
(initially the empty string, re-assigned from events), the accumulated
`response_text`, and `response_data`. -/
structure AgentAgg where
  conversation_id : Json := .str ""
  text : String := ""
  data : AgentData := {}
deriving Repr

/-- One iteration of the event dispatch in `process_agent_response`
(dify.py lines 105-130) applied to one parsed chunk.  `chunk["event"]`
on a non-dict raises `TypeError`; a missing subscripted key raises
`KeyError`; `.get` on a non-dict raises `AttributeError`; augmenting
`response_text` with a non-string answer raises `TypeError`. -/
def processAgentChunk (base_url : String) (st : AgentAgg) (chunk : Json) :
    Except PyErr AgentAgg :=
  match chunk with
  | .obj fields =>
    match lookupLast fields "event" with
    | none => .error (.keyError "event")
    | some event_type =>
      if event_type.isStrEq "agent_message" then
        match lookupLast fields "conversation_id" with
        | none => .error (.keyError "conversation_id")
        | some cid =>
          match lookupLast fields "answer" with
          | none => .error (.keyError "answer")
          | some (.str ans) =>
            .ok { st with conversation_id := cid, text := st.text ++ ans }
          | some _ => .error .typeError
      else if event_type.isStrEq "agent_thought" then
        let d := st.data
        let d := match lookupLast fields "tool" with
          | some t => if t.truthy then { d with tool := some t } else d
          | none => d
        let d := match lookupLast fields "tool_input" with
          | some ti => if ti.truthy then { d with tool_input := some ti } else d
          | none => d
        .ok { st with data := d }
      else if event_type.isStrEq "message_end" then
        match lookupLast fields "metadata" with
        | none => .error (.keyError "metadata")
        | some (.obj mdFields) =>
          match lookupLast mdFields "retriever_resources" with
          | some rr =>
            if rr.truthy then
              .ok { st with data := { st.data with retriever_resources := some rr } }
            else .ok st
          | none => .ok st
        | some _ => .error .attributeError
      else if event_type.isStrEq "message_file" then
        let file_obj : List (String × Option Json) :=
          [("base_url", some (.str (rstripSlash base_url))),
           ("url", snapVal fields "url"),
           ("id", snapVal fields "id"),
           ("type", snapVal fields "type"),
           ("belongs_to", snapVal fields "belongs_to"),
           ("conversation_id", snapVal fields "conversation_id")]
        .ok { st with data := { st.data with files := st.data.files ++ [file_obj] } }
      else .ok st
  | _ => .error .typeError

/-- The `response_data` dict built by `process_workflow_response`:
possible keys `retriever_resources`, `workflow_started`,
`workflow_ended`, `node_started`, `node_finished`. -/
structure WorkflowData where
  retriever_resources : Option Json := none
  workflow_started : Option (List (String × Option Json)) := none
  workflow_ended : Option (List (String × Option Json)) := none
  node_started : List (List (String × Option Json)) := []
  node_finished : List (List (String × Option Json)) := []
deriving Repr

/-- Local state of `process_workflow_response`. -/
structure WorkflowAgg where
  conversation_id : Json := .str ""
  text : String := ""
  data : WorkflowData := {}
deriving Repr

/-- The `workflow_started` snapshot dict (dify.py lines 190-198). -/
def workflowStartedSnap (fields : List (String × Json)) : List (String × Option Json) :=
  [("task_id", snapVal fields "task_id"),
   ("workflow_run_id", snapVal fields "workflow_run_id"),
   ("data", snapVal fields "data"),
   ("id", snapVal fields "id"),
   ("workflow_id", snapVal fields "workflow_id"),
   ("sequence_number", snapVal fields "sequence_number"),
   ("created_at", snapVal fields "created_at")]

/-- The `workflow_ended` snapshot dict (dify.py lines 201-215). -/
def workflowEndedSnap (fields : List (String × Json)) : List (String × Option Json) :=
  [("task_id", snapVal fields "task_id"),
   ("workflow_run_id", snapVal fields "workflow_run_id"),
   ("data", snapVal fields "data"),
   ("id", snapVal fields "id"),
   ("workflow_id", snapVal fields "workflow_id"),
   ("status", snapVal fields "status"),
   ("outputs", snapVal fields "outputs"),
   ("error", snapVal fields "error"),
   ("elapsed_time", snapVal fields "elapsed_time"),
   ("total_tokens", snapVal fields "total_tokens"),
   ("total_steps", snapVal fields "total_steps"),
   ("created_at", snapVal fields "created_at"),
   ("finished_at", snapVal fields "finished_at")]

/-- The `node_started` snapshot dict (dify.py lines 218-230). -/
def nodeStartedSnap (fields : List (String × Json)) : List (String × Option Json) :=
  [("task_id", snapVal fields "task_id"),
   ("workflow_run_id", snapVal fields "workflow_run_id"),
   ("data", snapVal fields "data"),
   ("id", snapVal fields "id"),
   ("node_id", snapVal fields "node_id"),
   ("node_type", snapVal fields "node_type"),
   ("title", snapVal fields "title"),
   ("index", snapVal fields "index"),
   ("predecessor_node_id", snapVal fields "predecessor_node_id"),
   ("inputs", snapVal fields "inputs"),
   ("created_at", snapVal fields "created_at")]

/-- The `node_finished` snapshot dict (dify.py lines 233-254). -/
def nodeFinishedSnap (fields : List (String × Json)) : List (String × Option Json) :=
  [("task_id", snapVal fields "task_id"),
   ("workflow_run_id", snapVal fields "workflow_run_id"),
   ("data", snapVal fields "data"),
   ("id", snapVal fields "id"),
   ("node_id", snapVal fields "node_id"),
   ("node_type", snapVal fields "node_type"),
   ("title", snapVal fields "title"),
   ("index", snapVal fields "index"),
   ("predecessor_node_id", snapVal fields "predecessor_node_id"),
   ("inputs", snapVal fields "inputs"),
   ("process_data", snapVal fields "process_data"),
   ("outputs", snapVal fields "outputs"),
   ("status", snapVal fields "status"),
   ("error", snapVal fields "error"),
   ("elapsed_time", snapVal fields "elapsed_time"),
   ("execution_metadata", snapVal fields "execution_metadata"),
   ("total_tokens", snapVal fields "total_tokens"),
   ("total_price", snapVal fields "total_price"),
   ("currency", snapVal fields "currency"),
   ("created_at", snapVal fields "created_at")]

/-- One iteration of the event dispatch in `process_workflow_response`
(dify.py lines 179-254) applied to one parsed chunk. -/
def processWorkflowChunk (st : WorkflowAgg) (chunk : Json) :
    Except PyErr WorkflowAgg :=
  match chunk with
  | .obj fields =>
    match lookupLast fields "event" with
    | none => .error (.keyError "event")
    | some event_type =>
      if event_type.isStrEq "message" then
        match lookupLast fields "conversation_id" with
        | none => .error (.keyError "conversation_id")
        | some cid =>
          match lookupLast fields "answer" with
          | none => .error (.keyError "answer")
          | some (.str ans) =>
            .ok { st with conversation_id := cid, text := st.text ++ ans }
          | some _ => .error .typeError
      else if event_type.isStrEq "message_end" then
        match lookupLast fields "metadata" with
        | none => .error (.keyError "metadata")
        | some (.obj mdFields) =>
          match lookupLast mdFields "retriever_resources" with
          | some rr =>
            if rr.truthy then
              .ok { st with data := { st.data with retriever_resources := some rr } }
            else .ok st
          | none => .ok st
        | some _ => .error .attributeError
      else if event_type.isStrEq "workflow_started" then
        .ok { st with data := { st.data with workflow_started := some (workflowStartedSnap fields) } }
      else if event_type.isStrEq "workflow_ended" then
        .ok { st with data := { st.data with workflow_ended := some (workflowEndedSnap fields) } }
      else if event_type.isStrEq "node_started" then
        .ok { st with data :=
          { st.data with node_started := st.data.node_started ++ [nodeStartedSnap fields] } }
      else if event_type.isStrEq "node_finished" then
        .ok { st with data :=
          { st.data with node_finished := st.data.node_finished ++ [nodeFinishedSnap fields] } }
      else .ok st
  | _ => .error .typeError

/-! ## The streaming loop -/

/-- State of the streaming loop: the byte buffer plus the aggregate
local variables. -/
structure StreamState (α : Type) where
  buffer : List Nat
  agg : α

/-- One iteration of the `async for r in response.content.iter_any()`
body, shared verbatim by `process_agent_response` (dify.py lines 82-92)
and `process_workflow_response` (lines 156-166): append the fragment,
split off AT MOST ONE delimiter-terminated record, decode it, and hand
it to the record handler; with no delimiter in the buffer, continue to
the next fragment.  On `UnicodeDecodeError` the handler line
`buffer = data + "\n\n" + buffer` concatenates `bytes` with the `str`
literal `"\n\n"`, which raises `TypeError` in Python 3 and so aborts
the invocation. -/
def feedFragment (handleRecord : α → List Char → Except PyErr α)
    (st : StreamState α) (r : List Nat) : Except PyErr (StreamState α) :=
  let buffer := st.buffer ++ r
  match splitOnFirstDelim buffer with
  | none => .ok { buffer := buffer, agg := st.agg }
  | some (data, rest) =>
    match utf8Decode data with
    | none => .error .typeError
    | some record =>
      match handleRecord st.agg record with
      | .error e => .error e
      | .ok agg => .ok { buffer := rest, agg := agg }

/-- Run the streaming loop over the whole fragment sequence; bytes
still in the buffer when the stream closes are discarded. -/
def runStream (handleRecord : α → List Char → Except PyErr α) (init : α)
    (frags : List (List Nat)) : Except PyErr α :=
  match frags.foldlM (feedFragment handleRecord) { buffer := [], agg := init } with
  | .error e => .error e
  | .ok st => .ok st.agg

/-- Record filtering shared by both streaming processors (dify.py
lines 94-100 / 168-174): skip records not starting with `data:`, skip
records whose text after the prefix fails `json.loads`, otherwise
dispatch the parsed chunk. -/
def processRecord (foldChunk : α → Json → Except PyErr α)
    (st : α) (record : List Char) : Except PyErr α :=
  if ("data:".data).isPrefixOf record then
    match parseJson (record.drop 5) with
    | none => .ok st
    | some chunk => foldChunk st chunk
  else .ok st

/-- `process_agent_response` (dify.py lines 76-132) over the fragment
sequence delivered by `response.content.iter_any()`. -/
def process_agent_response (base_url : String) (frags : List (List Nat)) :
    Except PyErr AgentAgg :=
  runStream (processRecord (processAgentChunk base_url)) {} frags

/-- `process_workflow_response` (dify.py lines 150-256). -/
def process_workflow_response (frags : List (List Nat)) : Except PyErr WorkflowAgg :=
  runStream (processRecord processWorkflowChunk) {} frags

/-! ## Blocking modes and `invoke` -/

/-- An HTTP response delivered by the backend: status code and the
body as the fragment sequence the socket yields. -/
structure HttpResponse where
  status : Nat
  fragments : List (List Nat)

/-- `await response.json()`: the whole body decoded and parsed;
failure raises (modelled as `jsonDecodeError`). -/
def responseJson (resp : HttpResponse) : Except PyErr Json :=
  match utf8Decode resp.fragments.flatten with
  | none => .error .jsonDecodeError
  | some body =>
    match parseJson body with
    | none => .error .jsonDecodeError
    | some j => .ok j

/-- `process_chatbot_response` (dify.py lines 134-142): parse the body
as one JSON object and read `conversation_id` and `answer` from its
top level; the metadata dict returned is the literal empty dict. -/
def process_chatbot_response (resp : HttpResponse) :
    Except PyErr (Json × Json × List (String × Json)) :=
  match responseJson resp with
  | .error e => .error e
  | .ok response_json =>
    match pySubscript response_json "conversation_id" with
    | .error e => .error e
    | .ok conversation_id =>
      match pySubscript response_json "answer" with
      | .error e => .error e
      | .ok answer => .ok (conversation_id, answer, ([] : List (String × Json)))

/-- Result of the response processor selected by the client's type. -/
inductive ProcResult where
  | agentR (r : AgentAgg) : ProcResult
  | chatbotR (conversation_id : Json) (answer : Json)
      (metadata : List (String × Json)) : ProcResult
  | workflowR (r : WorkflowAgg) : ProcResult
deriving Repr

/-- `process_textgenerator_response` (dify.py lines 144-148): when
verbose, the diagnostic log line first parses the body (and its parse
error would propagate); in every case the function then raises
`Exception("TextGenerator is not supported for now.")`. -/
def process_textgenerator_response (verbose : Bool) (resp : HttpResponse) :
    Except PyErr ProcResult :=
  if verbose then
    match responseJson resp with
    | .error e => .error e
    | .ok _ => .error (.exn "TextGenerator is not supported for now.")
  else .error (.exn "TextGenerator is not supported for now.")

/-- `DifyType` (dify.py lines 12-16). -/
inductive DifyType where
  | Agent : DifyType
  | Chatbot : DifyType
  | TextGenerator : DifyType
  | Workflow : DifyType
deriving DecidableEq, Repr

/-- Python dict assignment `d[k] = v`: update in place when the key
exists, append otherwise (insertion order preserved). -/
def dictSet (d : List (String × Json)) (k : String) (v : Json) : List (String × Json) :=
  if d.any (fun kv => kv.1 == k) then
    d.map (fun kv => if kv.1 == k then (k, v) else kv)
  else d ++ [(k, v)]

/-- Whether a payload dict has a key. -/
def hasKey (d : List (String × Json)) (k : String) : Bool :=
  d.any (fun kv => kv.1 == k)

/-- `make_payloads` (dify.py lines 34-54).  The network upload of
`image_bytes` is abstracted: `imageUpload = none` models no (or empty)
`image_bytes`, and `some uid` models provided image bytes whose
`upload_image` round-trip returned `uid` (the `id` field of the upload
response, checked for truthiness as in the source). -/
def make_payloads (ty : DifyType) (user : String) (text : Option String)
    (imageUpload : Option Json) (inputs : Option Json) : List (String × Json) :=
  let payloads : List (String × Json) :=
    [("inputs", match inputs with
                | some i => if i.truthy then i else .obj []
                | none => .obj []),
     ("query", match text with | some s => .str s | none => .null),
     ("response_mode",
       .str (if ty = DifyType.Agent ∨ ty = DifyType.Workflow then "streaming" else "blocking")),
     ("user", .str user),
     ("auto_generate_name", .bool false)]
  match imageUpload with
  | none => payloads
  | some uid =>
    if uid.truthy then
      let payloads := dictSet payloads "files"
        (.arr [.obj [("type", .str "image"),
                     ("transfer_method", .str "local_file"),
                     ("upload_file_id", uid)]])
      if ((lookupLast payloads "query").getD .null).truthy then payloads
      else dictSet payloads "query" (.str ".")
    else payloads

/-- Network round-trips that complete during `invoke`, in order; the
`/chat-messages` POST carries the JSON payload it sent. -/
inductive NetEffect where
  | fileUploadCompleted : NetEffect
  | chatMessagesPostCompleted (payload : List (String × Json)) : NetEffect
deriving Repr

/-- The request payload `invoke` sends to `/chat-messages`: the
`make_payloads` dict plus, when the caller-supplied conversation id is
truthy and `start_as_new` is not set, the `conversation_id` key
(dify.py lines 263-266). -/
def invokeRequestPayload (ty : DifyType) (user : String)
    (conversation_id : Option String) (text : Option String)
    (imageUpload : Option Json) (inputs : Option Json) (start_as_new : Bool) :
    List (String × Json) :=
  let payloads := make_payloads ty user text imageUpload inputs
  if (conversation_id.getD "") ≠ "" ∧ start_as_new = false then
    dictSet payloads "conversation_id" (.str (conversation_id.getD ""))
  else payloads

/-- `invoke` (dify.py lines 258-285).  The network is abstracted by
`imageUpload` (see `make_payloads`) and by `resp`, the response the
`/chat-messages` POST returns.  The first component records the
network round-trips that completed, in order; the second is the
returned tuple or the raised exception.  When the status is not 200
the diagnostic log line itself awaits `response.json()` (so a body
that is not JSON raises there); `raise_for_status` raises for any
status of 400 or more; otherwise the processor selected by the
client's type runs. -/
def invoke (ty : DifyType) (base_url user : String) (verbose : Bool)
    (conversation_id : Option String) (text : Option String)
    (imageUpload : Option Json) (inputs : Option Json) (start_as_new : Bool)
    (resp : HttpResponse) : List NetEffect × Except PyErr ProcResult :=
  let payloads :=
    invokeRequestPayload ty user conversation_id text imageUpload inputs start_as_new
  let effects :=
    (match imageUpload with
     | some _ => [NetEffect.fileUploadCompleted]
     | none => []) ++ [NetEffect.chatMessagesPostCompleted payloads]
  let proceed : Except PyErr ProcResult :=
    if resp.status ≥ 400 then
      .error (.httpStatusError resp.status)
    else
      match ty with
      | .Agent => (process_agent_response base_url resp.fragments).map ProcResult.agentR
      | .Chatbot =>
        (process_chatbot_response resp).map (fun p => ProcResult.chatbotR p.1 p.2.1 p.2.2)
      | .TextGenerator => process_textgenerator_response verbose resp
      | .Workflow => (process_workflow_response resp.fragments).map ProcResult.workflowR
  let result : Except PyErr ProcResult :=
    if resp.status ≠ 200 then
      match responseJson resp with
      | .error e => .error e
      | .ok _ => proceed
    else proceed
  (effects, result)

/-! ## Observation helpers used by the theorems -/

/-- Bytes of an ASCII string, for building concrete byte streams. -/
def asciiBytes (s : String) : List Nat := s.data.map Char.toNat

/-- Number of `\n\n` delimiters in a byte sequence, counted the way the
splitting loop would: first occurrences, left to right (so the number
of delimiter-terminated records the bytes contain). -/
def countDelimitersAux : Nat → List Nat → Nat
  | 0, _ => 0
  | fuel + 1, l =>
    match splitOnFirstDelim l with
    | none => 0
    | some (_, rest) => countDelimitersAux fuel rest + 1

/-- Number of `\n\n`-delimited records a byte sequence contains. -/
def countDelimiters (l : List Nat) : Nat := countDelimitersAux l.length l

/-- The streaming loop instrumented to collect every record it emits
(the loop is shared verbatim by both streaming processors; only the
per-record handler differs). -/
def collectRecords (frags : List (List Nat)) : Except PyErr (List (List Char)) :=
  runStream (fun rs r => .ok (rs ++ [r])) [] frags

/-- Count of the fragment-arrival rounds in which the post-append
buffer contains a `\n\n` delimiter, tracking the buffer the way the
loop does when every emitted candidate decodes (the error-free runs);
used to state the amended record-count property. -/
def delimRounds : List Nat → List (List Nat) → Nat
  | _, [] => 0
  | buf, r :: rest =>
    let b := buf ++ r
    match splitOnFirstDelim b with
    | none => delimRounds b rest
    | some (_, restBuf) => delimRounds restBuf rest + 1

/-- Chunks with a given `event` value (the ones a given fold branch
handles), for stating which events fed a fold rule. -/
def eventIs (ev : String) (c : Json) : Bool :=
  match c with
  | .obj fields =>
    match lookupLast fields "event" with
    | some v => v.isStrEq ev
    | none => false
  | _ => false

/-- The field list of a chunk known to be a JSON object. -/
def fieldsOf (c : Json) : List (String × Json) :=
  match c with
  | .obj fields => fields
  | _ => []

/-- Fold a chunk sequence with the agent dispatch from the initial
state, as the record loop does to the chunks that survive filtering. -/
def foldAgentChunks (base_url : String) (chunks : List Json) : Except PyErr AgentAgg :=
  chunks.foldlM (processAgentChunk base_url) {}

/-- Fold a chunk sequence with the workflow dispatch from the initial
state. -/
def foldWorkflowChunks (chunks : List Json) : Except PyErr WorkflowAgg :=
  chunks.foldlM processWorkflowChunk {}

/-! ## Concrete streams used in counterexamples and witnesses -/

/-- An `agent_message` record: conversation `c1`, answer `Hello `. -/
def recHello : List Nat :=
  asciiBytes "data: \x7b\"event\": \"agent_message\", \"conversation_id\": \"c1\", \"answer\": \"Hello \"\x7d\n\n"

/-- An `agent_message` record: conversation `c1`, answer `world`. -/
def recWorld : List Nat :=
  asciiBytes "data: \x7b\"event\": \"agent_message\", \"conversation_id\": \"c1\", \"answer\": \"world\"\x7d\n\n"

/-- An `agent_message` record: conversation `a`, answer `X`. -/
def recCidA : List Nat :=
  asciiBytes "data: \x7b\"event\": \"agent_message\", \"conversation_id\": \"a\", \"answer\": \"X\"\x7d\n\n"

/-- An `agent_message` record: conversation `b`, answer `Y`. -/
def recCidB : List Nat :=
  asciiBytes "data: \x7b\"event\": \"agent_message\", \"conversation_id\": \"b\", \"answer\": \"Y\"\x7d\n\n"

/-- A record whose payload after `data:` is not JSON. -/
def recBadJson : List Nat := asciiBytes "data: notjson\n\n"

/-- A record whose JSON payload lacks the `event` field. -/
def recNoEvent : List Nat := asciiBytes "data: \x7b\x7d\n\n"

/-- A `message_end` record lacking the `metadata` field. -/
def recMsgEndNoMetadata : List Nat := asciiBytes "data: \x7b\"event\": \"message_end\"\x7d\n\n"

/-- An `agent_message` record lacking the `answer` field. -/
def recAgentMsgNoAnswer : List Nat :=
  asciiBytes "data: \x7b\"event\": \"agent_message\", \"conversation_id\": \"a\"\x7d\n\n"

/-- Fields of a `workflow_started` event whose `sequence_number` is
present with the (falsy) value `0`. -/
def wfZeroFields : List (String × Json) :=
  [("event", .str "workflow_started"), ("task_id", .str "t1"), ("sequence_number", .num 0 0)]

/-- A `workflow_started` record carrying `sequence_number: 0`. -/
def recWfStartedZero : List Nat :=
  asciiBytes "data: \x7b\"event\": \"workflow_started\", \"task_id\": \"t1\", \"sequence_number\": 0\x7d\n\n"

/-- Two `agent_message` chunks with different conversation ids. -/
def agentChunksAB : List Json :=
  [.obj [("event", .str "agent_message"), ("conversation_id", .str "a"), ("answer", .str "X")],
   .obj [("event", .str "agent_message"), ("conversation_id", .str "b"), ("answer", .str "Y")]]

/-- Two workflow `message` chunks with different conversation ids. -/
def workflowChunksAB : List Json :=
  [.obj [("event", .str "message"), ("conversation_id", .str "a"), ("answer", .str "X")],
   .obj [("event", .str "message"), ("conversation_id", .str "b"), ("answer", .str "Y")]]

/-- The cardinality scenario: one `workflow_started`, two
`node_started`, one `workflow_ended`. -/
def wfChunksScenario : List Json :=
  [.obj [("event", .str "workflow_started")],
   .obj [("event", .str "node_started")],
   .obj [("event", .str "node_started")],
   .obj [("event", .str "workflow_ended")]]

/-- The aggregate the workflow fold produces on `wfChunksScenario`. -/
def wfScenarioAgg : WorkflowAgg :=
  { conversation_id := .str "", text := "",
    data := { retriever_resources := none,
              workflow_started := some (workflowStartedSnap [("event", .str "workflow_started")]),
              workflow_ended := some (workflowEndedSnap [("event", .str "workflow_ended")]),
              node_started := [nodeStartedSnap [("event", .str "node_started")],
                               nodeStartedSnap [("event", .str "node_started")]],
              node_finished := [] } }

/-!
# Theorems
-/

/-- C1: at the first delimiter-terminated record whose bytes are not
valid UTF-8 (here the first two bytes of a three-byte character,
truncated before the delimiter), the streaming loop is fatal: the
reattach line `buffer = data + "\n\n" + buffer` concatenates `bytes`
with a `str` and raises `TypeError`, aborting the invocation in both
Agent and Workflow modes, instead of reattaching the candidate and
waiting for more bytes as the specification states. -/
theorem undecodable_record_raises_typeError :
    process_agent_response "https://dify.example" [[0xE3, 0x81, 10, 10]] = .error .typeError ∧
    process_workflow_response [[0xE3, 0x81, 10, 10]] = .error .typeError ∧
    utf8Decode [0xE3, 0x81] = none :=
  ⟨rfl, rfl, rfl⟩

/-- Setting a key always leaves it present (helper). -/
theorem hasKey_dictSet_self (d : List (String × Json)) (k : String) (v : Json) :
    hasKey (dictSet d k v) k = true := by
  unfold hasKey dictSet
  by_cases h : d.any (fun kv => kv.1 == k)
  · rw [if_pos h]
    rw [List.any_eq_true] at h
    obtain ⟨x, hx, hpx⟩ := h
    refine List.any_eq_true.mpr ⟨(k, v), List.mem_map.mpr ⟨x, hx, ?_⟩, by simp⟩
    simp [hpx]
  · rw [if_neg h]
    simp [List.any_append]

/-- Setting one key does not change the presence of another (helper). -/
theorem hasKey_dictSet_ne (d : List (String × Json)) (k k2 : String) (v : Json)
    (h : (k2 == k) = false) : hasKey (dictSet d k v) k2 = hasKey d k2 := by
  unfold hasKey dictSet
  by_cases ha : d.any (fun kv => kv.1 == k)
  · rw [if_pos ha, List.any_map]
    congr 1
    funext kv
    by_cases hk : kv.1 == k
    · simp only [Function.comp, hk, if_pos rfl]
      simp only [beq_iff_eq] at hk
      simp [h, hk]
    · simp [Function.comp, hk]
  · rw [if_neg ha]
    have hk : (k == k2) = false := by
      rw [beq_eq_false_iff_ne] at h ⊢
      exact fun e => h e.symm
    simp [List.any_append, hk]

/-- The dict built by `make_payloads` never holds a `conversation_id`
key (helper). -/
theorem make_payloads_no_conversation_id (ty : DifyType) (user : String)
    (text : Option String) (imageUpload : Option Json) (inputs : Option Json) :
    hasKey (make_payloads ty user text imageUpload inputs) "conversation_id" = false := by
  cases imageUpload with
  | none => rfl
  | some uid =>
    by_cases ht : uid.truthy
    · simp only [make_payloads]
      rw [if_pos ht]
      split <;> split <;>
        first
          | (rw [hasKey_dictSet_ne _ "query" "conversation_id" _ (by decide),
                 hasKey_dictSet_ne _ "files" "conversation_id" _ (by decide)]
             rfl)
          | (rw [hasKey_dictSet_ne _ "files" "conversation_id" _ (by decide)]
             rfl)
    · simp only [make_payloads]
      rw [if_neg ht]
      rfl

/-- C10: the outbound `/chat-messages` payload contains a
`conversation_id` key exactly when the caller-supplied conversation id
is non-empty (a `None` id counting as empty, as Python truthiness
does) and `start_as_new` is false; with `start_as_new = true` the key
is omitted even for an existing conversation id. -/
theorem invoke_payload_conversation_id_key (ty : DifyType) (user : String)
    (cid : Option String) (text : Option String) (imageUpload : Option Json)
    (inputs : Option Json) (san : Bool) :
    hasKey (invokeRequestPayload ty user cid text imageUpload inputs san)
        "conversation_id" = true ↔ ((cid.getD "") ≠ "" ∧ san = false) := by
  unfold invokeRequestPayload
  by_cases hc : (cid.getD "") ≠ "" ∧ san = false
  · rw [if_pos hc]
    exact iff_of_true (hasKey_dictSet_self _ _ _) hc
  · rw [if_neg hc]
    rw [make_payloads_no_conversation_id]
    simp only [Bool.false_eq_true, false_iff]
    exact hc

/-- C9: in Chatbot mode the response body is parsed as one JSON value
and the call returns the body's `conversation_id` field, its `answer`
field, and the literal empty metadata dict; moreover every successful
Chatbot response carries empty metadata.  (`process_chatbot_response`
performs no streaming: it consumes the body in one parse, with no
record loop.) -/
theorem chatbot_returns_fields_and_empty_metadata :
    (∀ (resp : HttpResponse) (j cid ans : Json),
        responseJson resp = .ok j →
        pySubscript j "conversation_id" = .ok cid →
        pySubscript j "answer" = .ok ans →
        process_chatbot_response resp = .ok (cid, ans, ([] : List (String × Json)))) ∧
    (∀ (resp : HttpResponse) (r : Json × Json × List (String × Json)),
        process_chatbot_response resp = .ok r → r.2.2 = []) := by
  constructor
  · intro resp j cid ans hj hc ha
    simp [process_chatbot_response, hj, hc, ha]
  · intro resp r h
    unfold process_chatbot_response at h
    split at h
    · cases h
    · split at h
      · cases h
      · split at h
        · cases h
        · cases h
          rfl

/-- C9 witness: the scenario body yields `("c9", "ok", [])`. -/
theorem chatbot_scenario_witness :
    process_chatbot_response
        ⟨200, [asciiBytes "\x7b\"conversation_id\": \"c9\", \"answer\": \"ok\"\x7d"]⟩ =
      .ok (.str "c9", .str "ok", ([] : List (String × Json))) :=
  chatbot_returns_fields_and_empty_metadata.1 _
    (.obj [("conversation_id", .str "c9"), ("answer", .str "ok")])
    (.str "c9") (.str "ok") rfl rfl rfl

/-- C8: a decoded record that does not start with the `data:` prefix,
or whose text after the prefix fails to parse as JSON, is dropped with
the aggregate unchanged and processing continues; concretely, a stream
with one bad-JSON record between two valid `agent_message` events
yields a text equal to the concatenation of just the two valid
answers. -/
theorem record_drop_and_continue :
    (∀ (α : Type) (f : α → Json → Except PyErr α) (st : α) (record : List Char),
        ("data:".data).isPrefixOf record = false → processRecord f st record = .ok st) ∧
    (∀ (α : Type) (f : α → Json → Except PyErr α) (st : α) (record : List Char),
        parseJson (record.drop 5) = none → processRecord f st record = .ok st) ∧
    process_agent_response "https://dify.example" [recHello, recBadJson, recWorld] =
      .ok { conversation_id := .str "c1", text := "Hello world", data := {} } := by
  refine ⟨?_, ?_, ?_⟩
  · intro α f st record h
    simp [processRecord, h]
  · intro α f st record h
    simp [processRecord, h]
  · rfl

/-- C8 witness: a record without the prefix and a record with bad JSON
after it are both dropped with the aggregate unchanged. -/
theorem record_drop_witness :
    processRecord (processAgentChunk "https://dify.example") ({} : AgentAgg)
        ("event: ping".data) = .ok {} ∧
    processRecord (processAgentChunk "https://dify.example") ({} : AgentAgg)
        ("data: notjson".data) = .ok {} :=
  ⟨record_drop_and_continue.1 _ _ _ _ rfl, record_drop_and_continue.2.1 _ _ _ _ rfl⟩

/-- C5 counterexample: with TextGenerator mode and a 200 response the
`/chat-messages` POST completes — it is in the effect trace of the
call — and only then does the invocation fail with the "not supported"
error, refuting the claim that the error is raised without an HTTP
request to the backend having completed. -/
theorem textgenerator_error_after_completed_post :
    invoke .TextGenerator "https://dify.example" "u" false none (some "hi") none none false
        ⟨200, [asciiBytes "\x7b\x7d"]⟩ =
      ([NetEffect.chatMessagesPostCompleted
          [("inputs", .obj []), ("query", .str "hi"), ("response_mode", .str "blocking"),
           ("user", .str "u"), ("auto_generate_name", .bool false)]],
       .error (.exn "TextGenerator is not supported for now.")) := rfl

/-- C5 amended: every TextGenerator-mode `invoke` against a 200
response fails with the `TextGenerator is not supported for now.`
error, but only after the `/chat-messages` POST completes: the effect
trace of the call is exactly the completed POST carrying the request
payload (stated for the client's default `verbose = false` and no
image attachment). -/
theorem textgenerator_always_unsupported (base_url user : String)
    (cid text : Option String) (inputs : Option Json) (san : Bool)
    (resp : HttpResponse) (h : resp.status = 200) :
    invoke .TextGenerator base_url user false cid text none inputs san resp =
      ([NetEffect.chatMessagesPostCompleted
          (invokeRequestPayload .TextGenerator user cid text none inputs san)],
       .error (.exn "TextGenerator is not supported for now.")) := by
  unfold invoke
  rw [h]
  simp [process_textgenerator_response]

/-- C5 witness: the amended statement at a concrete call. -/
theorem textgenerator_unsupported_witness :
    invoke .TextGenerator "https://dify.example" "u" false (some "c") none none none true
        ⟨200, []⟩ =
      ([NetEffect.chatMessagesPostCompleted
          (invokeRequestPayload .TextGenerator "u" (some "c") none none none true)],
       .error (.exn "TextGenerator is not supported for now.")) :=
  textgenerator_always_unsupported "https://dify.example" "u" (some "c") none none true
    ⟨200, []⟩ rfl

/-- C4 counterexample: a successfully parsed event lacking the `event`
discriminant raises `KeyError` and aborts the whole stream instead of
being dropped; likewise a `message_end` event lacking `metadata` and
an `agent_message` event lacking `answer`. -/
theorem missing_event_fields_fatal :
    process_agent_response "https://dify.example" [recNoEvent] =
      .error (.keyError "event") ∧
    process_agent_response "https://dify.example" [recMsgEndNoMetadata] =
      .error (.keyError "metadata") ∧
    process_agent_response "https://dify.example" [recAgentMsgNoAnswer] =
      .error (.keyError "answer") :=
  ⟨rfl, rfl, rfl⟩

/-- C4 amended: a parsed event object lacking the `event` discriminant
raises `KeyError "event"`, a `message_end` event lacking `metadata`
raises `KeyError "metadata"`, and an `agent_message` event lacking
`conversation_id` raises `KeyError "conversation_id"`; each exception
terminates the operation (only non-`data:` records, JSON parse
failures, and unknown `event` values are dropped silently). -/
theorem malformed_event_raises_keyError :
    (∀ (b : String) (st : AgentAgg) (fields : List (String × Json)),
        lookupLast fields "event" = none →
        processAgentChunk b st (.obj fields) = .error (.keyError "event")) ∧
    (∀ (b : String) (st : AgentAgg) (fields : List (String × Json)),
        lookupLast fields "event" = some (.str "message_end") →
        lookupLast fields "metadata" = none →
        processAgentChunk b st (.obj fields) = .error (.keyError "metadata")) ∧
    (∀ (b : String) (st : AgentAgg) (fields : List (String × Json)),
        lookupLast fields "event" = some (.str "agent_message") →
        lookupLast fields "conversation_id" = none →
        processAgentChunk b st (.obj fields) = .error (.keyError "conversation_id")) := by
  refine ⟨?_, ?_, ?_⟩
  · intro b st fields h
    simp [processAgentChunk, h]
  · intro b st fields he hm
    simp [processAgentChunk, he, hm, Json.isStrEq]
  · intro b st fields he hc
    simp [processAgentChunk, he, hc, Json.isStrEq]

/-- C4 witness: the amended statement at concrete events. -/
theorem malformed_event_witness :
    processAgentChunk "b" {} (.obj [("answer", .str "x")]) = .error (.keyError "event") ∧
    processAgentChunk "b" {} (.obj [("event", .str "message_end")]) =
      .error (.keyError "metadata") ∧
    processAgentChunk "b" {} (.obj [("event", .str "agent_message")]) =
      .error (.keyError "conversation_id") :=
  ⟨malformed_event_raises_keyError.1 _ _ _ rfl,
   malformed_event_raises_keyError.2.1 _ _ _ rfl rfl,
   malformed_event_raises_keyError.2.2 _ _ _ rfl rfl⟩

/-- C6 counterexample: a `workflow_started` event carrying
`sequence_number` present with value `0` is stored with
`sequence_number` mapped to null — a present value replaced by the
placeholder, because the snapshot guard tests Python truthiness
(`chunk[k] if chunk.get(k) else None`) rather than presence. -/
theorem workflow_snapshot_present_zero_nulled :
    process_workflow_response [recWfStartedZero] =
      .ok { conversation_id := .str "", text := "",
            data := { workflow_started := some (
              [("task_id", some (.str "t1")), ("workflow_run_id", none), ("data", none),
               ("id", none), ("workflow_id", none), ("sequence_number", none),
               ("created_at", none)]) } } ∧
    parseJson (("data: \x7b\"event\": \"workflow_started\", \"task_id\": \"t1\", " ++
        "\"sequence_number\": 0\x7d").data.drop 5) = some (.obj wfZeroFields) ∧
    lookupLast wfZeroFields "sequence_number" = some (.num 0 0) ∧
    (some (.num 0 0) : Option Json) ≠ none :=
  ⟨rfl, rfl, rfl, by simp⟩

/-- C6 amended: each stored snapshot field equals the event's value
exactly when the field is present with a truthy value; it is null both
when the field is absent and when its present value is falsy (null,
false, 0, empty string, empty list, empty object); and every entry of
each of the four workflow snapshot dicts is that guarded value of its
key. -/
theorem snapshot_field_guarded_by_truthiness :
    (∀ (fields : List (String × Json)) (k : String) (v : Json),
        lookupLast fields k = some v → v.truthy = true → snapVal fields k = some v) ∧
    (∀ (fields : List (String × Json)) (k : String) (v : Json),
        lookupLast fields k = some v → v.truthy = false → snapVal fields k = none) ∧
    (∀ (fields : List (String × Json)) (k : String),
        lookupLast fields k = none → snapVal fields k = none) ∧
    (∀ (fields : List (String × Json)) (k : String) (v : Option Json),
        (k, v) ∈ workflowStartedSnap fields → v = snapVal fields k) ∧
    (∀ (fields : List (String × Json)) (k : String) (v : Option Json),
        (k, v) ∈ workflowEndedSnap fields → v = snapVal fields k) ∧
    (∀ (fields : List (String × Json)) (k : String) (v : Option Json),
        (k, v) ∈ nodeStartedSnap fields → v = snapVal fields k) ∧
    (∀ (fields : List (String × Json)) (k : String) (v : Option Json),
        (k, v) ∈ nodeFinishedSnap fields → v = snapVal fields k) := by
  refine ⟨?_, ?_, ?_, ?_, ?_, ?_, ?_⟩
  · intro fields k v h ht
    simp [snapVal, h, ht]
  · intro fields k v h ht
    simp [snapVal, h, ht]
  · intro fields k h
    simp [snapVal, h]
  · intro fields k v h
    simp only [workflowStartedSnap, List.mem_cons, Prod.mk.injEq,
      List.not_mem_nil, or_false] at h
    rcases h with h | h | h | h | h | h | h <;> (obtain ⟨rfl, rfl⟩ := h; rfl)
  · intro fields k v h
    simp only [workflowEndedSnap, List.mem_cons, Prod.mk.injEq,
      List.not_mem_nil, or_false] at h
    rcases h with h | h | h | h | h | h | h | h | h | h | h | h | h <;>
      (obtain ⟨rfl, rfl⟩ := h; rfl)
  · intro fields k v h
    simp only [nodeStartedSnap, List.mem_cons, Prod.mk.injEq,
      List.not_mem_nil, or_false] at h
    rcases h with h | h | h | h | h | h | h | h | h | h | h <;>
      (obtain ⟨rfl, rfl⟩ := h; rfl)
  · intro fields k v h
    simp only [nodeFinishedSnap, List.mem_cons, Prod.mk.injEq,
      List.not_mem_nil, or_false] at h
    rcases h with h | h | h | h | h | h | h | h | h | h | h | h | h | h | h | h | h | h | h | h <;>
      (obtain ⟨rfl, rfl⟩ := h; rfl)

/-- C6 witness: the guards at concrete fields — a truthy present value
is kept, a falsy present value is nulled, an absent key is nulled. -/
theorem snapshot_field_guard_witness :
    snapVal [("k", .str "x")] "k" = some (.str "x") ∧
    snapVal [("k", .num 0 0)] "k" = none ∧
    snapVal [] "k" = none :=
  ⟨snapshot_field_guarded_by_truthiness.1 [("k", .str "x")] "k" (.str "x") rfl rfl,
   snapshot_field_guarded_by_truthiness.2.1 [("k", .num 0 0)] "k" (.num 0 0) rfl rfl,
   snapshot_field_guarded_by_truthiness.2.2.1 [] "k" rfl⟩

/-- Bind on `Except` applied to a success (helper). -/
theorem except_bind_ok {α β : Type} (a : α) (f : α → Except PyErr β) :
    (Except.ok a >>= f) = f a := rfl

/-- Bind on `Except` applied to a failure (helper). -/
theorem except_bind_error {α β : Type} (e : PyErr) (f : α → Except PyErr β) :
    ((Except.error e : Except PyErr α) >>= f) = .error e := rfl

/-- Record-count invariant of the collecting stream from any state
(helper): a successful run appends exactly one record per round whose
post-append buffer contains a delimiter. -/
theorem collect_foldlM_length (frags : List (List Nat)) :
    ∀ (st stF : StreamState (List (List Char))),
      frags.foldlM (feedFragment (fun rs r => .ok (rs ++ [r]))) st = .ok stF →
      stF.agg.length = st.agg.length + delimRounds st.buffer frags := by
  induction frags with
  | nil =>
    intro st stF h
    simp only [List.foldlM_nil] at h
    cases h
    simp [delimRounds]
  | cons r rest ih =>
    intro st stF h
    rw [List.foldlM_cons] at h
    cases hf : feedFragment (fun rs r => .ok (rs ++ [r])) st r with
    | error e =>
      rw [hf, except_bind_error] at h
      cases h
    | ok st2 =>
      rw [hf, except_bind_ok] at h
      have ihh := ih st2 stF h
      simp only [feedFragment] at hf
      cases hs : splitOnFirstDelim (st.buffer ++ r) with
      | none =>
        rw [hs] at hf
        cases hf
        simpa [delimRounds, hs] using ihh
      | some p =>
        obtain ⟨data, restBuf⟩ := p
        simp only [hs] at hf
        cases hd : utf8Decode data with
        | none =>
          simp only [hd] at hf
          cases hf
        | some record =>
          simp only [hd, Except.ok.injEq] at hf
          cases hf
          simp only [delimRounds, hs]
          simp at ihh
          omega

set_option maxRecDepth 100000 in
/-- C2 counterexample: a single fragment carrying two complete
delimiter-terminated records is handled only once in its arrival
round: although two `\n\n` delimiters arrived, the loop folds just the
first record (text `Hello `, one collected record), and since no
further fragment arrives the second complete record is never folded —
refuting both the delimiter-count equality and same-round processing. -/
theorem two_delimiters_one_fragment_one_record :
    countDelimiters (recHello ++ recWorld) = 2 ∧
    process_agent_response "https://dify.example" [recHello ++ recWorld] =
      .ok { conversation_id := .str "c1", text := "Hello ", data := {} } ∧
    collectRecords [recHello ++ recWorld] =
      .ok [("data: \x7b\"event\": \"agent_message\", \"conversation_id\": \"c1\", " ++
           "\"answer\": \"Hello \"\x7d").data] :=
  ⟨rfl, rfl, rfl⟩

/-- C2 amended: the number of records the streaming loop decodes and
hands to the fold equals the number of fragment-arrival rounds whose
post-append buffer contains a `\n\n` delimiter — at most one record
per arriving fragment, so delimiters beyond the first in a round are
deferred to later rounds (and complete records still buffered when the
stream ends are discarded, as are trailing undelimited bytes, which
are never emitted). -/
theorem records_emitted_eq_delimiter_rounds (frags : List (List Nat))
    (rs : List (List Char)) (h : collectRecords frags = .ok rs) :
    rs.length = delimRounds [] frags := by
  unfold collectRecords runStream at h
  cases hf : List.foldlM (feedFragment fun rs r => Except.ok (rs ++ [r]))
      ({ buffer := [], agg := [] } : StreamState (List (List Char))) frags with
  | error e =>
    rw [hf] at h
    cases h
  | ok stF =>
    rw [hf] at h
    cases h
    simpa using collect_foldlM_length frags { buffer := [], agg := [] } stF hf

/-- C2 witness: two fragments, each completing one record (the second
with a trailing undelimited byte), emit exactly two records — one per
delimiter round. -/
theorem records_emitted_witness :
    ([['a'], ['b']] : List (List Char)).length =
      delimRounds [] [asciiBytes "a\n\n", asciiBytes "b\n\nc"] :=
  records_emitted_eq_delimiter_rounds [asciiBytes "a\n\n", asciiBytes "b\n\nc"]
    [['a'], ['b']] rfl

/-- A JSON value string-equal to a literal is that string (helper). -/
theorem isStrEq_eq {j : Json} {s : String} (h : j.isStrEq s = true) : j = .str s := by
  cases j <;> simp_all [Json.isStrEq]

/-- A successful agent fold step sets `conversation_id` from the event
exactly when the event is an `agent_message`, and leaves it unchanged
otherwise (helper). -/
theorem processAgentChunk_ok_cid (b : String) (st st2 : AgentAgg) (c : Json)
    (h : processAgentChunk b st c = .ok st2) :
    st2.conversation_id =
      (if eventIs "agent_message" c = true then
        (lookupLast (fieldsOf c) "conversation_id").getD .null
       else st.conversation_id) := by
  cases c with
  | null => simp [processAgentChunk] at h
  | bool b2 => simp [processAgentChunk] at h
  | num m e => simp [processAgentChunk] at h
  | str s => simp [processAgentChunk] at h
  | arr items => simp [processAgentChunk] at h
  | obj fields =>
    unfold processAgentChunk at h
    simp only [eventIs, fieldsOf]
    cases hev : lookupLast fields "event" with
    | none =>
      simp only [hev] at h
      cases h
    | some ev =>
      simp only [hev] at h ⊢
      by_cases h1 : ev.isStrEq "agent_message" = true
      · rw [if_pos h1] at h
        rw [if_pos h1]
        cases hcid : lookupLast fields "conversation_id" with
        | none =>
          simp only [hcid] at h
          cases h
        | some cid =>
          simp only [hcid] at h
          cases hans : lookupLast fields "answer" with
          | none =>
            simp only [hans] at h
            cases h
          | some a =>
            simp only [hans] at h
            cases a <;> first
              | (cases h; simp [hcid])
              | cases h
      · rw [if_neg h1] at h
        rw [if_neg h1]
        by_cases h2 : ev.isStrEq "agent_thought" = true
        · rw [if_pos h2] at h
          cases h
          rfl
        · rw [if_neg h2] at h
          by_cases h3 : ev.isStrEq "message_end" = true
          · rw [if_pos h3] at h
            cases hmd : lookupLast fields "metadata" with
            | none =>
              simp only [hmd] at h
              cases h
            | some md =>
              simp only [hmd] at h
              cases md with
              | obj mdf =>
                cases hrr : lookupLast mdf "retriever_resources" with
                | none =>
                  simp only [hrr] at h
                  cases h
                  rfl
                | some rr =>
                  simp only [hrr] at h
                  by_cases ht : rr.truthy = true
                  · rw [if_pos ht] at h
                    cases h
                    rfl
                  · rw [if_neg ht] at h
                    cases h
                    rfl
              | null => cases h
              | bool b3 => cases h
              | num m e => cases h
              | str s => cases h
              | arr items => cases h
          · rw [if_neg h3] at h
            by_cases h4 : ev.isStrEq "message_file" = true
            · rw [if_pos h4] at h
              cases h
              rfl
            · rw [if_neg h4] at h
              cases h
              rfl

/-- A successful workflow fold step changes the aggregate as follows:
`node_started`/`node_finished` grow by exactly the event's snapshot
when the event is theirs, `workflow_started`/`workflow_ended` are
overwritten with the snapshot exactly on their events, and
`conversation_id` is set from the event exactly on `message` events
(helper). -/
theorem processWorkflowChunk_ok_shape (st st2 : WorkflowAgg) (c : Json)
    (h : processWorkflowChunk st c = .ok st2) :
    st2.data.node_started = st.data.node_started ++
      (if eventIs "node_started" c = true then [nodeStartedSnap (fieldsOf c)] else []) ∧
    st2.data.node_finished = st.data.node_finished ++
      (if eventIs "node_finished" c = true then [nodeFinishedSnap (fieldsOf c)] else []) ∧
    st2.data.workflow_started =
      (if eventIs "workflow_started" c = true then some (workflowStartedSnap (fieldsOf c))
       else st.data.workflow_started) ∧
    st2.data.workflow_ended =
      (if eventIs "workflow_ended" c = true then some (workflowEndedSnap (fieldsOf c))
       else st.data.workflow_ended) ∧
    st2.conversation_id =
      (if eventIs "message" c = true then (lookupLast (fieldsOf c) "conversation_id").getD .null
       else st.conversation_id) := by
  cases c with
  | null => simp [processWorkflowChunk] at h
  | bool b2 => simp [processWorkflowChunk] at h
  | num m e => simp [processWorkflowChunk] at h
  | str s => simp [processWorkflowChunk] at h
  | arr items => simp [processWorkflowChunk] at h
  | obj fields =>
    unfold processWorkflowChunk at h
    simp only [eventIs, fieldsOf]
    cases hev : lookupLast fields "event" with
    | none =>
      simp only [hev] at h
      cases h
    | some ev =>
      simp only [hev] at h ⊢
      by_cases h1 : ev.isStrEq "message" = true
      · obtain rfl := isStrEq_eq h1
        simp only [Json.isStrEq] at h
        simp at h
        cases hcid : lookupLast fields "conversation_id" with
        | none => simp [hcid] at h
        | some cid =>
          cases hans : lookupLast fields "answer" with
          | none => simp [hcid, hans] at h
          | some a =>
            cases a <;> simp [hcid, hans] at h
            subst h
            refine ⟨?_, ?_, ?_, ?_, ?_⟩ <;> simp [Json.isStrEq, hcid]
      · rw [if_neg h1] at h
        by_cases h2 : ev.isStrEq "message_end" = true
        · obtain rfl := isStrEq_eq h2
          simp [Json.isStrEq] at h
          cases hmd : lookupLast fields "metadata" with
          | none => simp [hmd] at h
          | some md =>
            simp only [hmd] at h
            cases md with
            | obj mdf =>
              cases hrr : lookupLast mdf "retriever_resources" with
              | none =>
                simp only [hrr] at h
                cases h
                refine ⟨?_, ?_, ?_, ?_, ?_⟩ <;> simp [Json.isStrEq]
              | some rr =>
                simp only [hrr] at h
                by_cases ht : rr.truthy = true
                · rw [if_pos ht] at h
                  cases h
                  refine ⟨?_, ?_, ?_, ?_, ?_⟩ <;> simp [Json.isStrEq]
                · rw [if_neg ht] at h
                  cases h
                  refine ⟨?_, ?_, ?_, ?_, ?_⟩ <;> simp [Json.isStrEq]
            | null => cases h
            | bool b3 => cases h
            | num m e => cases h
            | str s => cases h
            | arr items => cases h
        · rw [if_neg h2] at h
          by_cases h3 : ev.isStrEq "workflow_started" = true
          · obtain rfl := isStrEq_eq h3
            simp [Json.isStrEq] at h
            subst h
            refine ⟨?_, ?_, ?_, ?_, ?_⟩ <;> simp [Json.isStrEq]
          · rw [if_neg h3] at h
            by_cases h4 : ev.isStrEq "workflow_ended" = true
            · obtain rfl := isStrEq_eq h4
              simp [Json.isStrEq] at h
              subst h
              refine ⟨?_, ?_, ?_, ?_, ?_⟩ <;> simp [Json.isStrEq]
            · rw [if_neg h4] at h
              by_cases h5 : ev.isStrEq "node_started" = true
              · obtain rfl := isStrEq_eq h5
                simp [Json.isStrEq] at h
                subst h
                refine ⟨?_, ?_, ?_, ?_, ?_⟩ <;> simp [Json.isStrEq]
              · rw [if_neg h5] at h
                by_cases h6 : ev.isStrEq "node_finished" = true
                · obtain rfl := isStrEq_eq h6
                  simp [Json.isStrEq] at h
                  subst h
                  refine ⟨?_, ?_, ?_, ?_, ?_⟩ <;> simp [Json.isStrEq]
                · rw [if_neg h6] at h
                  cases h
                  refine ⟨?_, ?_, ?_, ?_, ?_⟩ <;> simp [h1, h3, h4, h5, h6]

/-- A fold that overwrites its accumulator on events selected by `f`
ends at the image of the last selected event (helper). -/
theorem foldl_last_write {α β : Type} (f : α → Bool) (g : α → β) (l : List α) :
    ∀ (a : β), l.foldl (fun acc c => if f c then g c else acc) a =
      (((l.filter f).getLast?).map g).getD a := by
  induction l using List.reverseRecOn with
  | nil =>
    intro a
    rfl
  | append_singleton l c ih =>
    intro a
    rw [List.foldl_append]
    by_cases hf : f c
    · simp [List.filter_append, hf, List.getLast?_concat]
    · simp [List.filter_append, hf, ih]

/-- Over any successfully folded agent chunk sequence, the final
`conversation_id` is the overwrite-fold of the `agent_message` events'
conversation ids (helper). -/
theorem foldAgent_cid (b : String) (chunks : List Json) :
    ∀ (st agg : AgentAgg), chunks.foldlM (processAgentChunk b) st = .ok agg →
      agg.conversation_id = chunks.foldl (fun acc c =>
        if eventIs "agent_message" c = true then
          (lookupLast (fieldsOf c) "conversation_id").getD .null
        else acc) st.conversation_id := by
  induction chunks with
  | nil =>
    intro st agg h
    simp only [List.foldlM_nil] at h
    cases h
    rfl
  | cons c rest ih =>
    intro st agg h
    rw [List.foldlM_cons] at h
    cases hc : processAgentChunk b st c with
    | error e =>
      rw [hc, except_bind_error] at h
      cases h
    | ok st2 =>
      rw [hc, except_bind_ok] at h
      rw [List.foldl_cons, ← processAgentChunk_ok_cid b st st2 c hc]
      exact ih st2 agg h

/-- Over any successfully folded workflow chunk sequence, the node
lists are the snapshots of their events appended in arrival order, and
the single-object keys and `conversation_id` are overwrite-folds
(helper). -/
theorem foldWorkflow_shape (chunks : List Json) :
    ∀ (st agg : WorkflowAgg), chunks.foldlM processWorkflowChunk st = .ok agg →
      agg.data.node_started = st.data.node_started ++
        (chunks.filter (eventIs "node_started")).map (fun c => nodeStartedSnap (fieldsOf c)) ∧
      agg.data.node_finished = st.data.node_finished ++
        (chunks.filter (eventIs "node_finished")).map (fun c => nodeFinishedSnap (fieldsOf c)) ∧
      agg.data.workflow_started = chunks.foldl (fun acc c =>
        if eventIs "workflow_started" c = true then some (workflowStartedSnap (fieldsOf c))
        else acc) st.data.workflow_started ∧
      agg.data.workflow_ended = chunks.foldl (fun acc c =>
        if eventIs "workflow_ended" c = true then some (workflowEndedSnap (fieldsOf c))
        else acc) st.data.workflow_ended ∧
      agg.conversation_id = chunks.foldl (fun acc c =>
        if eventIs "message" c = true then (lookupLast (fieldsOf c) "conversation_id").getD .null
        else acc) st.conversation_id := by
  induction chunks with
  | nil =>
    intro st agg h
    simp only [List.foldlM_nil] at h
    cases h
    exact ⟨by simp, by simp, rfl, rfl, rfl⟩
  | cons c rest ih =>
    intro st agg h
    rw [List.foldlM_cons] at h
    cases hc : processWorkflowChunk st c with
    | error e =>
      rw [hc, except_bind_error] at h
      cases h
    | ok st2 =>
      rw [hc, except_bind_ok] at h
      obtain ⟨s1, s2, s3, s4, s5⟩ := processWorkflowChunk_ok_shape st st2 c hc
      obtain ⟨i1, i2, i3, i4, i5⟩ := ih st2 agg h
      refine ⟨?_, ?_, ?_, ?_, ?_⟩
      · rw [i1, s1, List.filter_cons]
        by_cases hf : eventIs "node_started" c = true
        · simp [hf, List.append_assoc]
        · simp [hf]
      · rw [i2, s2, List.filter_cons]
        by_cases hf : eventIs "node_finished" c = true
        · simp [hf, List.append_assoc]
        · simp [hf]
      · rw [List.foldl_cons, ← s3, i3]
      · rw [List.foldl_cons, ← s4, i4]
      · rw [List.foldl_cons, ← s5, i5]

/-- C3 counterexample: two `agent_message` events with conversation
ids `a` then `b` end with conversation_id `b` — the id is overwritten
on every such event, so the final aggregate carries the LAST event's
value, not the first as the claim states. -/
theorem conversation_id_overwritten :
    process_agent_response "https://dify.example" [recCidA, recCidB] =
      .ok { conversation_id := .str "b", text := "XY", data := {} } ∧
    Json.str "b" ≠ Json.str "a" :=
  ⟨rfl, by simp⟩

/-- C3 amended: in Agent mode (`agent_message` events) and Workflow
mode (`message` events), conversation_id is assigned on EVERY such
event: for every successfully folded event sequence the final
conversation_id equals the last such event's conversation_id value
(or the initial empty string when no such event occurs) — last write
wins, not first. -/
theorem conversation_id_last_write_wins :
    (∀ (b : String) (chunks : List Json) (agg : AgentAgg),
        foldAgentChunks b chunks = .ok agg →
        agg.conversation_id =
          (((chunks.filter (eventIs "agent_message")).getLast?).map
            (fun c => (lookupLast (fieldsOf c) "conversation_id").getD .null)).getD
            (.str "")) ∧
    (∀ (chunks : List Json) (agg : WorkflowAgg),
        foldWorkflowChunks chunks = .ok agg →
        agg.conversation_id =
          (((chunks.filter (eventIs "message")).getLast?).map
            (fun c => (lookupLast (fieldsOf c) "conversation_id").getD .null)).getD
            (.str "")) := by
  constructor
  · intro b chunks agg h
    rw [foldAgent_cid b chunks _ agg h, foldl_last_write]
  · intro chunks agg h
    rw [(foldWorkflow_shape chunks _ agg h).2.2.2.2, foldl_last_write]

/-- C3 witness: the amended statement at the two-event sequences. -/
theorem conversation_id_last_write_witness :
    (AgentAgg.mk (.str "b") "XY" {}).conversation_id =
      (((agentChunksAB.filter (eventIs "agent_message")).getLast?).map
        (fun c => (lookupLast (fieldsOf c) "conversation_id").getD .null)).getD (.str "") ∧
    (WorkflowAgg.mk (.str "b") "XY" {}).conversation_id =
      (((workflowChunksAB.filter (eventIs "message")).getLast?).map
        (fun c => (lookupLast (fieldsOf c) "conversation_id").getD .null)).getD (.str "") :=
  ⟨conversation_id_last_write_wins.1 "https://dify.example" agentChunksAB _ rfl,
   conversation_id_last_write_wins.2 workflowChunksAB _ rfl⟩

/-- C7: for every workflow event sequence that folds successfully,
`node_started` and `node_finished` hold exactly one snapshot per
corresponding event, in arrival order — each such event grows its list
by exactly one — while `workflow_started` and `workflow_ended` hold a
single object, the snapshot of the most recent such event (or nothing
when none occurred): they are overwritten, never accumulated into a
list. -/
theorem workflow_cardinality_policy (chunks : List Json) (agg : WorkflowAgg)
    (h : foldWorkflowChunks chunks = .ok agg) :
    agg.data.node_started =
      (chunks.filter (eventIs "node_started")).map (fun c => nodeStartedSnap (fieldsOf c)) ∧
    agg.data.node_finished =
      (chunks.filter (eventIs "node_finished")).map (fun c => nodeFinishedSnap (fieldsOf c)) ∧
    agg.data.workflow_started =
      ((chunks.filter (eventIs "workflow_started")).getLast?).map
        (fun c => workflowStartedSnap (fieldsOf c)) ∧
    agg.data.workflow_ended =
      ((chunks.filter (eventIs "workflow_ended")).getLast?).map
        (fun c => workflowEndedSnap (fieldsOf c)) := by
  obtain ⟨i1, i2, i3, i4, i5⟩ := foldWorkflow_shape chunks _ agg h
  refine ⟨by simpa using i1, by simpa using i2, ?_, ?_⟩
  · rw [i3, foldl_last_write]
    cases (chunks.filter (eventIs "workflow_started")).getLast? <;> rfl
  · rw [i4, foldl_last_write]
    cases (chunks.filter (eventIs "workflow_ended")).getLast? <;> rfl

/-- C7 witness: the cardinality policy at the scenario with one
`workflow_started`, two `node_started` and one `workflow_ended`. -/
theorem workflow_cardinality_witness :
    wfScenarioAgg.data.node_started =
      (wfChunksScenario.filter (eventIs "node_started")).map
        (fun c => nodeStartedSnap (fieldsOf c)) ∧
    wfScenarioAgg.data.node_finished =
      (wfChunksScenario.filter (eventIs "node_finished")).map
        (fun c => nodeFinishedSnap (fieldsOf c)) ∧
    wfScenarioAgg.data.workflow_started =
      ((wfChunksScenario.filter (eventIs "workflow_started")).getLast?).map
        (fun c => workflowStartedSnap (fieldsOf c)) ∧
    wfScenarioAgg.data.workflow_ended =
      ((wfChunksScenario.filter (eventIs "workflow_ended")).getLast?).map
        (fun c => workflowEndedSnap (fieldsOf c)) :=
  workflow_cardinality_policy wfChunksScenario wfScenarioAgg rfl

end Linedify
